import Mathlib

/-!
Shallow embedding of the process-supervision / log-tailing / history
pipeline of `src/src-tauri/src/lib.rs` (router-cli), together with proofs
of the specification claims about it.

Conventions of the embedding:
* Rust `u16`/`u32`/`u64` values are `Nat`s; `% 2^64` (resp. `% 2^32`) is
  inserted exactly where the Rust code can wrap (release-mode wrapping
  arithmetic and `as` casts).
* Rust `f64` cost arithmetic (`estimate_request_cost`, the running
  `total_cost_usd`) is modelled in exact rational arithmetic; no claim
  depends on floating-point rounding of costs.
* File-system and process effects are made explicit: the persisted blob,
  the spawn outcome and the kill outcome become inputs of the functions
  that the Rust code obtains them from.
-/

set_option maxRecDepth 8000

namespace RouterCli

/-! ### Basic string helpers (Rust `str` operations, ASCII fragment) -/

/-- Rust `str::contains` (substring test) on character lists. -/
def listContains (hay needle : List Char) : Bool :=
  match hay with
  | [] => needle.isEmpty
  | _ :: t => needle.isPrefixOf hay || listContains t needle

/-- Rust `str::contains` on strings. -/
def strContains (s pat : String) : Bool :=
  listContains s.data pat.data

/-- Rust `str::starts_with`. -/
def strStartsWith (s pat : String) : Bool :=
  pat.data.isPrefixOf s.data

/-- Rust `str::ends_with`. -/
def strEndsWith (s pat : String) : Bool :=
  pat.data.isSuffixOf s.data

/-- Rust `str::to_lowercase`, restricted to ASCII case mapping (every
string these claims touch is ASCII; Unicode special casing is not
modelled). -/
def strToLower (s : String) : String :=
  ⟨s.data.map Char.toLower⟩

/-! ### Data model (structs of `lib.rs`) -/

/-- `RequestLog` (lib.rs:27): one parsed access-log event. -/
structure RequestLog where
  id : String
  timestamp : Nat
  provider : String
  model : String
  method : String
  path : String
  status : Nat
  duration_ms : Nat
  tokens_in : Option Nat
  tokens_out : Option Nat
deriving DecidableEq, Repr

/-- `RequestHistory` (lib.rs:369): the History Store record.
`total_cost_usd` is an exact rational standing for the Rust `f64`. -/
structure RequestHistory where
  requests : List RequestLog
  total_tokens_in : Nat
  total_tokens_out : Nat
  total_cost_usd : ℚ
deriving DecidableEq, Repr

/-- `RequestHistory::default()`: the empty record. -/
def RequestHistory.empty : RequestHistory :=
  { requests := [], total_tokens_in := 0, total_tokens_out := 0, total_cost_usd := 0 }

/-! ### History Store: load / save / ingest -/

/-- The possible states of the persisted history blob, as the Rust code
distinguishes them: the file may be missing (`path.exists()` false), the
read may fail (`fs::read_to_string` Err), the JSON parse may fail
(`serde_json::from_str` Err), or it may hold a valid record. -/
inductive PersistedBlob where
  | missing
  | unreadable
  | unparseable
  | valid (h : RequestHistory)
deriving DecidableEq

/-- `load_request_history` (lib.rs:377-387): read the persisted blob;
every failure path falls through to `RequestHistory::default()`. -/
def load_request_history : PersistedBlob → RequestHistory
  | .valid h => h
  | .missing => RequestHistory.empty
  | .unreadable => RequestHistory.empty
  | .unparseable => RequestHistory.empty

/-- `save_request_history` (lib.rs:390-399): trim to the last 500
requests, then persist. The returned record is the persisted one
(serialisation of these structs cannot fail). -/
def save_request_history (history : RequestHistory) : RequestHistory :=
  if history.requests.length > 500 then
    { history with requests := history.requests.drop (history.requests.length - 500) }
  else
    history

/-- `estimate_request_cost` (lib.rs:402-426), with exact rational rates. -/
def estimate_request_cost (model : String) (tokens_in tokens_out : Nat) : ℚ :=
  let m := strToLower model
  let rates : ℚ × ℚ :=
    if strContains m "claude" && strContains m "opus" then (15, 75)
    else if strContains m "claude" && strContains m "sonnet" then (3, 15)
    else if strContains m "claude" && strContains m "haiku" then (1/4, 5/4)
    else if strContains m "gpt-5" then (15, 45)
    else if strContains m "gpt-4o" then (5/2, 10)
    else if strContains m "gpt-4-turbo" || strContains m "gpt-4" then (10, 30)
    else if strContains m "gpt-3.5" then (1/2, 3/2)
    else if strContains m "gemini" && strContains m "pro" then (5/4, 5)
    else if strContains m "gemini" && strContains m "flash" then (3/40, 3/10)
    else if strContains m "gemini-2" then (1/10, 2/5)
    else if strContains m "qwen" then (1/2, 2)
    else (1, 3)
  (tokens_in : ℚ) / 1000000 * rates.1 + (tokens_out : ℚ) / 1000000 * rates.2

/-- The History-Store write performed inside the Tailer's loop
(`start_log_watcher`, lib.rs:748-766): load the current record (here the
parameter), skip the event if some stored event has the same
`(timestamp, path)`, otherwise push it, trim to the last 500, and save.
The result is the persisted record after the iteration (a failed write
is only logged in Rust; the embedding assumes the write succeeds). -/
def tailer_ingest (history : RequestHistory) (request_log : RequestLog) : RequestHistory :=
  let is_duplicate := history.requests.any fun r =>
    r.timestamp == request_log.timestamp && r.path == request_log.path
  if is_duplicate then
    history
  else
    let requests := history.requests ++ [request_log]
    let requests :=
      if requests.length > 500 then requests.drop (requests.length - 500) else requests
    save_request_history { history with requests := requests }

/-- `add_request_to_history` (lib.rs:2152-2175) with the loaded record as
parameter: unconditionally add the event's tokens and estimated cost to
the running totals (u64 additions wrap), then push the request unless an
event with the same `id` is already present, and save. The Rust command
returns this (untrimmed) record; the persisted blob is
`save_request_history` of it. -/
def add_request_to_history (history₀ : RequestHistory) (request : RequestLog) :
    RequestHistory :=
  let tokens_in := request.tokens_in.getD 0
  let tokens_out := request.tokens_out.getD 0
  let cost := estimate_request_cost request.model tokens_in tokens_out
  let history :=
    { history₀ with
      total_tokens_in := (history₀.total_tokens_in + tokens_in) % 2 ^ 64
      total_tokens_out := (history₀.total_tokens_out + tokens_out) % 2 ^ 64
      total_cost_usd := history₀.total_cost_usd + cost }
  if history.requests.any fun r => r.id == request.id then
    history
  else
    { history with requests := history.requests ++ [request] }

/-! ### Provider / model detection (lib.rs:487-579) -/

/-- Rust `str::split(sep)` on character lists (keeps empty fields,
including a leading/trailing one). -/
def splitChar (sep : Char) : List Char → List (List Char)
  | [] => [[]]
  | c :: t =>
    match splitChar sep t with
    | [] => [[]]
    | h :: r => if c = sep then [] :: h :: r else (c :: h) :: r

/-- `detect_provider_from_model` (lib.rs:487-516): keyword matching on the
lowercased model name, falling through to `"unknown"`. -/
def detect_provider_from_model (model : String) : String :=
  let m := strToLower model
  if strContains m "claude" || strContains m "sonnet" ||
     strContains m "opus" || strContains m "haiku" then "claude"
  else if strContains m "gpt" || strContains m "codex" ||
     strStartsWith m "o3" || strStartsWith m "o1" then "openai"
  else if strContains m "gemini" then "gemini"
  else if strContains m "qwen" then "qwen"
  else if strContains m "deepseek" then "deepseek"
  else if strContains m "glm" then "zhipu"
  else if strContains m "antigravity" then "antigravity"
  else "unknown"

/-- The early-return block of `detect_provider_from_path`
(lib.rs:523-537): on an Amp-style path, look for the first `provider`
segment and map the following segment. -/
def provider_from_amp_segment (path : String) : Option String :=
  if strContains path "/api/provider/" then
    let parts := (splitChar '/' path.data).map fun l => String.mk l
    match parts.findIdx? (· == "provider") with
    | some idx =>
      match parts.get? (idx + 1) with
      | some provider =>
        some (if provider = "anthropic" then "claude"
              else if provider = "openai" then "openai"
              else if provider = "google" then "gemini"
              else provider)
      | none => none
    | none => none
  else none

/-- The fall-through tail of `detect_provider_from_path`
(lib.rs:540-551): infer the provider from standard endpoint shapes. -/
def provider_from_endpoint_shape (path : String) : Option String :=
  if strContains path "/v1/messages" || strContains path "/messages" then
    some "claude"
  else if strContains path "/v1/chat/completions" || strContains path "/chat/completions" then
    some "openai-compat"
  else if strContains path "/v1beta" || strContains path ":generateContent" ||
          strContains path ":streamGenerateContent" then
    some "gemini"
  else none

/-- `detect_provider_from_path` (lib.rs:522-552): the Amp-segment block,
whose early `return` otherwise falls through to the endpoint-shape
checks. -/
def detect_provider_from_path (path : String) : Option String :=
  match provider_from_amp_segment path with
  | some p => some p
  | none => provider_from_endpoint_shape path

/-- Index of the first occurrence of `needle` as a sublist of `hay`
(Rust `str::find(&str)`, character-counted; byte and character indices
coincide on the ASCII paths these functions see). -/
def findSubIdx (hay needle : List Char) : Option Nat :=
  match hay with
  | [] => if needle.isEmpty then some 0 else none
  | _ :: t =>
    if needle.isPrefixOf hay then some 0
    else (findSubIdx t needle).map (· + 1)

/-- `extract_model_from_path` (lib.rs:557-579): for Gemini-style paths,
the segment after `/models/`, cut at the first `:` (else at the first
`/`). -/
def extract_model_from_path (path : String) : Option String :=
  if strContains path "/models/" then
    match findSubIdx path.data "/models/".data with
    | some idx =>
      let model_part := path.data.drop (idx + 8)
      let model :=
        match model_part.findIdx? (· == ':') with
        | some colon_idx => model_part.take colon_idx
        | none =>
          match model_part.findIdx? (· == '/') with
          | some slash_idx => model_part.take slash_idx
          | none => model_part
      if model.isEmpty then none else some (String.mk model)
    | none => none
  else none

/-! ### Numeric token parsing (Rust `FromStr`) -/

def parseNatDigitsAux : List Char → Nat → Option Nat
  | [], acc => some acc
  | c :: t, acc =>
    if c.isDigit then parseNatDigitsAux t (acc * 10 + (c.toNat - 48)) else none

/-- Decimal value of a non-empty all-digit string. -/
def parseNatDigits : List Char → Option Nat
  | [] => none
  | l => parseNatDigitsAux l 0

/-- Rust `u64::from_str`: an optional `+` sign, then one or more ASCII
digits, rejecting values above `u64::MAX`. -/
def parseU64 (s : List Char) : Option Nat :=
  let s := match s with
    | '+' :: t => t
    | _ => s
  match parseNatDigits s with
  | some n => if n < 2 ^ 64 then some n else none
  | none => none

/-- Rust `u16::from_str`, same grammar with the `u16::MAX` bound. -/
def parseU16 (s : List Char) : Option Nat :=
  let s := match s with
    | '+' :: t => t
    | _ => s
  match parseNatDigits s with
  | some n => if n < 2 ^ 16 then some n else none
  | none => none

/-- Parsed `f64` values, with the finite case carried exactly as a
rational (the embedding does not round to binary64; every claim that
touches this agrees between the two semantics at its inputs). -/
inductive F64 where
  | nan
  | inf (neg : Bool)
  | fin (q : ℚ)
deriving DecidableEq

/-- Mantissa of the Rust float grammar:
`Digits | Digits '.' Digits? | '.' Digits`, valued exactly. -/
def parseMantissa (s : List Char) : Option ℚ :=
  match s.findIdx? (· == '.') with
  | none => (parseNatDigits s).map fun n => (n : ℚ)
  | some i =>
    let intPart := s.take i
    let fracPart := s.drop (i + 1)
    match intPart, fracPart with
    | [], [] => none
    | [], f => (parseNatDigits f).map fun n => (n : ℚ) / 10 ^ f.length
    | ip, [] => (parseNatDigits ip).map fun n => (n : ℚ)
    | ip, f => do
      let a ← parseNatDigits ip
      let b ← parseNatDigits f
      pure ((a : ℚ) + (b : ℚ) / 10 ^ f.length)

/-- Exponent of the Rust float grammar: an optional sign then digits. -/
def parseExp (s : List Char) : Option Int :=
  match s with
  | '+' :: t => (parseNatDigits t).map fun n => (n : Int)
  | '-' :: t => (parseNatDigits t).map fun n => -(n : Int)
  | t => (parseNatDigits t).map fun n => (n : Int)

/-- Rust `f64::from_str` grammar:
`Sign? ('inf' | 'infinity' | 'nan' | Number)` with
`Number ::= Mantissa Exp?`, keywords case-insensitive. -/
def parseF64 (s : List Char) : Option F64 :=
  let (neg, s) := match s with
    | '+' :: t => (false, t)
    | '-' :: t => (true, t)
    | t => (false, t)
  let low := s.map Char.toLower
  if low = "inf".data || low = "infinity".data then some (.inf neg)
  else if low = "nan".data then some .nan
  else
    let (mant, expPart) :=
      match s.findIdx? fun c => c == 'e' || c == 'E' with
      | some i => (s.take i, some (s.drop (i + 1)))
      | none => (s, none)
    match parseMantissa mant with
    | none => none
    | some q =>
      match expPart with
      | none => some (.fin (if neg then -q else q))
      | some es =>
        match parseExp es with
        | none => none
        | some e =>
          let v := q * (10 : ℚ) ^ (e : Int)
          some (.fin (if neg then -v else v))

/-- Rust `str::trim_end_matches(pat)`: repeatedly strip a trailing
occurrence of `pat`. Written with explicit fuel (`s.length` always
suffices) so that it evaluates inside the kernel. -/
def trimEndMatchesAux (pat : List Char) : Nat → List Char → List Char
  | 0, s => s
  | fuel + 1, s =>
    if !pat.isEmpty && pat.isSuffixOf s then
      trimEndMatchesAux pat fuel (s.take (s.length - pat.length))
    else s

def trimEndMatches (s pat : List Char) : List Char :=
  trimEndMatchesAux pat s.length s

/-- The duration-token conversion inside `parse_gin_log_line`
(lib.rs:641-648): `ms`-suffixed tokens parse as integers, `s`-suffixed
tokens parse as `f64` seconds and are scaled by 1000 and cast
(`as u64`: truncation toward zero, saturating, NaN to 0); every parse
failure defaults to 0. -/
def parse_duration_token (duration_str : String) : Nat :=
  if strEndsWith duration_str "ms" then
    (parseU64 (trimEndMatches duration_str.data "ms".data)).getD 0
  else if strEndsWith duration_str "s" then
    match (parseF64 (trimEndMatches duration_str.data "s".data)).getD (.fin 0) with
    | .nan => 0
    | .inf neg => if neg then 0 else 2 ^ 64 - 1
    | .fin q =>
      let r := q * 1000
      if r ≤ 0 then 0 else min (Int.toNat ⌊r⌋) (2 ^ 64 - 1)
  else 0

/-- Whether the numeric part of a duration token parses at all (used to
state the "unparseable durations become zero" conjunct). -/
def duration_token_parses (duration_str : String) : Bool :=
  if strEndsWith duration_str "ms" then
    (parseU64 (trimEndMatches duration_str.data "ms".data)).isSome
  else if strEndsWith duration_str "s" then
    (parseF64 (trimEndMatches duration_str.data "s".data)).isSome
  else false

/-! ### The GIN access-log grammar (lib.rs:615-628)

The Rust code matches
`\[GIN\]\s+(\d{4}/\d{2}/\d{2})\s+-\s+(\d{2}:\d{2}:\d{2})\s+\|\s+(\d+)\s+\|\s+([^\s]+)\s+\|\s+[^\s]+\s+\|\s+(\w+)\s+"([^"]+)"(?:\s+\|\s+model=(\S+))?`
with an unanchored leftmost search. Every repeated class in the pattern
is followed by a character it cannot itself match, so a maximal-munch
matcher tried at each successive start position computes exactly the
regex's captures; that matcher is spelled out below. -/

/-- Regex `\s` (ASCII fragment; the log lines are ASCII). -/
def isRegexWs (c : Char) : Bool :=
  c == ' ' || c == '\t' || c == '\n' || c == '\x0b' || c == '\x0c' || c == '\r'

/-- Regex `\w` (ASCII fragment). -/
def isWordChar (c : Char) : Bool :=
  c.isAlphanum || c == '_'

/-- Consume a literal. -/
def expectLit (pat s : List Char) : Option (List Char) :=
  if pat.isPrefixOf s then some (s.drop pat.length) else none

/-- Consume a maximal non-empty run of characters satisfying `p`. -/
def takeWhile1 (p : Char → Bool) (s : List Char) : Option (List Char × List Char) :=
  let tk := s.takeWhile p
  if tk.isEmpty then none else some (tk, s.drop tk.length)

/-- Consume `\s+`. -/
def ws1 (s : List Char) : Option (List Char) :=
  (takeWhile1 isRegexWs s).map (·.2)

/-- Consume exactly `n` digits (`\d{n}`). -/
def digitsN (n : Nat) (s : List Char) : Option (List Char × List Char) :=
  let tk := s.take n
  if tk.length = n && tk.all Char.isDigit then some (tk, s.drop n) else none

/-- The capture groups of the GIN regex. -/
structure GinCaptures where
  date : String
  time : String
  status : String
  duration : String
  method : String
  path : String
  model? : Option String
deriving DecidableEq, Repr

/-- Consume `\s+\|\s+` (the field separator). -/
def sepBarWs (s : List Char) : Option (List Char) :=
  (ws1 s).bind fun s => (expectLit ['|'] s).bind ws1

/-- Consume `(\d{4}/\d{2}/\d{2})`, returning the captured characters. -/
def ginDate (s : List Char) : Option (List Char × List Char) :=
  (digitsN 4 s).bind fun (d1, s) =>
  (expectLit ['/'] s).bind fun s =>
  (digitsN 2 s).bind fun (d2, s) =>
  (expectLit ['/'] s).bind fun s =>
  (digitsN 2 s).map fun (d3, s) =>
  (d1 ++ '/' :: d2 ++ '/' :: d3, s)

/-- Consume `(\d{2}:\d{2}:\d{2})`, returning the captured characters. -/
def ginTime (s : List Char) : Option (List Char × List Char) :=
  (digitsN 2 s).bind fun (t1, s) =>
  (expectLit [':'] s).bind fun s =>
  (digitsN 2 s).bind fun (t2, s) =>
  (expectLit [':'] s).bind fun s =>
  (digitsN 2 s).map fun (t3, s) =>
  (t1 ++ ':' :: t2 ++ ':' :: t3, s)

/-- The optional trailing group `(?:\s+\|\s+model=(\S+))?`. -/
def ginModelSuffix (s : List Char) : Option (List Char) :=
  (sepBarWs s).bind fun s =>
  (expectLit "model=".data s).bind fun s =>
  (takeWhile1 (fun c => !isRegexWs c) s).map (·.1)

/-- Consume `\s+-\s+` (between date and time). -/
def sepDashWs (s : List Char) : Option (List Char) :=
  (ws1 s).bind fun s => (expectLit ['-'] s).bind ws1

/-- Consume the quoted-path part `\s+"([^"]+)"`. -/
def ginQuotedPath (s : List Char) : Option (List Char × List Char) :=
  (ws1 s).bind fun s =>
  (expectLit ['"'] s).bind fun s =>
  (takeWhile1 (fun c => c != '"') s).bind fun (pth, s) =>
  (expectLit ['"'] s).map fun s => (pth, s)

/-- Match the date-and-time prefix `\[GIN\]\s+(date)\s+-\s+(time)` at the
head of `l`, returning both captures. -/
def ginMatchHead (l : List Char) : Option ((List Char × List Char) × List Char) :=
  (expectLit "[GIN]".data l).bind fun s =>
  (ws1 s).bind fun s =>
  (ginDate s).bind fun (date, s) =>
  (sepDashWs s).bind fun s =>
  (ginTime s).map fun (time, s) =>
  ((date, time), s)

/-- Match the piped fields
`\|\s+(\d+)\s+\|\s+([^\s]+)\s+\|\s+[^\s]+\s+\|\s+(\w+)\s+"([^"]+)"…`
after the timestamp, returning status, duration, method, path and the
rest of the line after the closing quote. -/
def ginMatchFields (l : List Char) :
    Option ((List Char × List Char × List Char × List Char) × List Char) :=
  (sepBarWs l).bind fun s =>
  (takeWhile1 Char.isDigit s).bind fun (st, s) =>
  (sepBarWs s).bind fun s =>
  (takeWhile1 (fun c => !isRegexWs c) s).bind fun (dur, s) =>
  (sepBarWs s).bind fun s =>
  (takeWhile1 (fun c => !isRegexWs c) s).bind fun (_ip, s) =>
  (sepBarWs s).bind fun s =>
  (takeWhile1 isWordChar s).bind fun (meth, s) =>
  (ginQuotedPath s).map fun (pth, s) =>
  ((st, dur, meth, pth), s)

/-- Match the GIN pattern at the head of `l`. -/
def ginMatchAt (l : List Char) : Option GinCaptures :=
  (ginMatchHead l).bind fun ((date, time), s) =>
  (ginMatchFields s).map fun ((st, dur, meth, pth), s) =>
  { date := ⟨date⟩
    time := ⟨time⟩
    status := ⟨st⟩
    duration := ⟨dur⟩
    method := ⟨meth⟩
    path := ⟨pth⟩
    model? := (ginModelSuffix s).map (⟨·⟩) }

/-- Leftmost search of the GIN pattern (Rust `Regex::captures`). -/
def ginSearch : List Char → Option GinCaptures
  | [] => none
  | l@(_ :: t) =>
    match ginMatchAt l with
    | some c => some c
    | none => ginSearch t

/-! ### Calendar arithmetic (the fragment of chrono the code uses)

The local timezone is modelled as a fixed offset `tzOffsetMs` (east
positive), so DST gaps/folds — in which chrono's
`and_local_timezone(Local).unwrap()` would be partial — do not arise,
and chrono's far-range validity window (|year| ≤ ~262000) is not
modelled; every claim uses modern in-range timestamps. -/

def isLeapYear (y : Int) : Bool :=
  (y % 4 == 0 && y % 100 != 0) || y % 400 == 0

def daysInMonth (y : Int) (m : Nat) : Nat :=
  if m = 2 then (if isLeapYear y then 29 else 28)
  else if m = 4 || m = 6 || m = 9 || m = 11 then 30
  else 31

/-- Days from 1970-01-01 to the civil date `y-m-d` (proleptic
Gregorian). -/
def daysFromCivil (y : Int) (m d : Nat) : Int :=
  let y' := if m ≤ 2 then y - 1 else y
  let era := Int.fdiv y' 400
  let yoe := y' - era * 400
  let mp : Int := if m > 2 then (m : Int) - 3 else (m : Int) + 9
  let doy := Int.fdiv (153 * mp + 2) 5 + (d : Int) - 1
  let doe := yoe * 365 + Int.fdiv yoe 4 - Int.fdiv yoe 100 + doy
  era * 146097 + doe - 719468

/-- Civil date `(y, m, d)` of the day `z` days after 1970-01-01. -/
def civilFromDays (z : Int) : Int × Nat × Nat :=
  let z := z + 719468
  let era := Int.fdiv z 146097
  let doe := z - era * 146097
  let yoe := Int.fdiv (doe - Int.fdiv doe 1460 + Int.fdiv doe 36524 - Int.fdiv doe 146096) 365
  let y := yoe + era * 400
  let doy := doe - (365 * yoe + Int.fdiv yoe 4 - Int.fdiv yoe 100)
  let mp := Int.fdiv (5 * doy + 2) 153
  let d := (doy - Int.fdiv (153 * mp + 2) 5 + 1).toNat
  let m := (if mp < 10 then mp + 3 else mp - 9).toNat
  (if m ≤ 2 then y + 1 else y, m, d)

/-- `i64 as u64` / `timestamp_millis() as u64`: two's-complement wrap. -/
def intToU64 (x : Int) : Nat :=
  (x % 2 ^ 64).toNat

/-- `u64 as i64`: two's-complement reinterpretation. -/
def u64ToI64 (n : Nat) : Int :=
  if n % 2 ^ 64 < 2 ^ 63 then (n % 2 ^ 64 : Int) else (n % 2 ^ 64 : Int) - 2 ^ 64

/-- Epoch milliseconds of the naive local datetime, `none` exactly when
chrono's `%Y-%m-%d %H:%M:%S` parse rejects it (`%S` accepts `60` for a
leap second, which chrono makes time-arithmetically equal to the next
minute's start, as the plain sum here does). -/
def naiveTsMillis (y : Int) (mo d h mi s : Nat) : Option Int :=
  if 1 ≤ mo && mo ≤ 12 && 1 ≤ d && d ≤ daysInMonth y mo
      && h ≤ 23 && mi ≤ 59 && s ≤ 60 then
    some ((daysFromCivil y mo d * 86400 + h * 3600 + mi * 60 + s) * 1000)
  else none

/-- Decimal value of an all-digit slice (the shapes are guaranteed by the
regex captures feeding this). -/
def natOfDigits (l : List Char) : Nat :=
  (parseNatDigits l).getD 0

/-! ### `parse_gin_log_line` (lib.rs:583-676) -/

/-- The denylist of internal/management routes (lib.rs:590-598). -/
def gin_denylisted (line : String) : Bool :=
  strContains line "/v0/management/" ||
  strContains line "/v1/models" ||
  strContains line "?uploadThread" ||
  strContains line "?getCreditsByRequestId" ||
  strContains line "?threadDisplayCostInfo" ||
  strContains line "/api/internal" ||
  strContains line "/api/telemetry" ||
  strContains line "/api/otel"

/-- The trackable-endpoint filter (lib.rs:602-607). -/
def gin_trackable (line : String) : Bool :=
  strContains line "/chat/completions" ||
  strContains line "/v1/messages" ||
  strContains line "/completions" ||
  strContains line "/v1beta" ||
  strContains line ":generateContent" ||
  strContains line ":streamGenerateContent"

/-- `parse_gin_log_line` (lib.rs:583-676). The ambient inputs of the Rust
function are passed explicitly: `tzOffsetMs` the local UTC offset,
`nowMs` the wall clock substituted on timestamp-parse failure, and
`counter` the value `fetch_add` returns from the shared request
counter. -/
def parse_gin_log_line (tzOffsetMs : Int) (nowMs : Nat) (counter : Nat)
    (line : String) : Option RequestLog :=
  if !strContains line "[GIN]" then none
  else if gin_denylisted line then none
  else if !gin_trackable line then none
  else
    (ginSearch line.data).bind fun caps =>
    (parseU16 caps.status.data).bind fun status =>
    let dd := caps.date.data
    let td := caps.time.data
    let y : Int := natOfDigits (dd.take 4)
    let mo := natOfDigits ((dd.drop 5).take 2)
    let d := natOfDigits (dd.drop 8)
    let h := natOfDigits (td.take 2)
    let mi := natOfDigits ((td.drop 3).take 2)
    let sec := natOfDigits (td.drop 6)
    let timestamp :=
      match naiveTsMillis y mo d h mi sec with
      | some naive => intToU64 (naive - tzOffsetMs)
      | none => nowMs
    let duration_ms := parse_duration_token caps.duration
    let model := match caps.model? with
      | some m => m
      | none => (extract_model_from_path caps.path).getD "unknown"
    let provider := (detect_provider_from_path caps.path).getD
      (detect_provider_from_model model)
    let unique_id := "req_" ++ toString timestamp ++ "_" ++ toString counter
    some { id := unique_id
           timestamp := timestamp
           provider := provider
           model := model
           method := caps.method
           path := caps.path
           status := status
           duration_ms := duration_ms
           tokens_in := none
           tokens_out := none }

/-! ### Usage Aggregator (`get_usage_stats`, lib.rs:2015-2142) -/

structure TimeSeriesPoint where
  label : String
  value : Nat
deriving DecidableEq, Repr

structure ModelUsage where
  model : String
  requests : Nat
  tokens : Nat
deriving DecidableEq, Repr

structure UsageStats where
  total_requests : Nat
  success_count : Nat
  failure_count : Nat
  total_tokens : Nat
  input_tokens : Nat
  output_tokens : Nat
  requests_today : Nat
  tokens_today : Nat
  models : List ModelUsage
  requests_by_day : List TimeSeriesPoint
  tokens_by_day : List TimeSeriesPoint
  requests_by_hour : List TimeSeriesPoint
  tokens_by_hour : List TimeSeriesPoint
deriving DecidableEq, Repr

/-- `UsageStats::default()`. -/
def UsageStats.zero : UsageStats :=
  ⟨0, 0, 0, 0, 0, 0, 0, 0, [], [], [], [], []⟩

/-- Per-event token count
`(tokens_in.unwrap_or(0) + tokens_out.unwrap_or(0))` — a `u32` addition,
wrapping — `as u64`. -/
def req_tokens (r : RequestLog) : Nat :=
  (r.tokens_in.getD 0 + r.tokens_out.getD 0) % 2 ^ 32

/-- Zero-padded decimal (chrono's `%Y`/`%m`/`%d`/`%H` padding). -/
def padNum (width n : Nat) : String :=
  let s := toString n
  String.mk (List.replicate (width - s.length) '0') ++ s

def formatYear (y : Int) : String :=
  if y < 0 then "-" ++ padNum 4 y.natAbs else padNum 4 y.toNat

/-- `%Y-%m-%d` of a civil date. -/
def format_day (ymd : Int × Nat × Nat) : String :=
  formatYear ymd.1 ++ "-" ++ padNum 2 ymd.2.1 ++ "-" ++ padNum 2 ymd.2.2

/-- The local day index of a `u64` millisecond timestamp:
`DateTime::from_timestamp_millis(ts as i64)` shifted into the local
offset. -/
def localDays (tz : Int) (ts : Nat) : Int :=
  Int.fdiv (u64ToI64 ts + tz) 86400000

/-- The `%Y-%m-%d` day bucket key of an event timestamp. -/
def local_day_key (tz : Int) (ts : Nat) : String :=
  format_day (civilFromDays (localDays tz ts))

/-- The `%Y-%m-%dT%H` hour bucket key of an event timestamp. -/
def local_hour_key (tz : Int) (ts : Nat) : String :=
  local_day_key tz ts ++ "T" ++
    padNum 2 ((Int.emod (Int.fdiv (u64ToI64 ts + tz) 3600000) 24).toNat)

/-- Ascending sort by label (`sort_by(|a, b| a.label.cmp(&b.label))`;
byte-wise and character-wise comparison coincide on the ASCII bucket
labels). -/
def sortByLabel (pts : List TimeSeriesPoint) : List TimeSeriesPoint :=
  pts.insertionSort fun a b => a.label ≤ b.label

/-- `if v.len() > n { v = v.split_off(v.len() - n) }`. -/
def keepLast {α : Type} (n : Nat) (l : List α) : List α :=
  if l.length > n then l.drop (l.length - n) else l

instance : IsTrans TimeSeriesPoint fun a b => a.label ≤ b.label :=
  ⟨fun _ _ _ hab hbc => le_trans hab hbc⟩

instance : IsTotal TimeSeriesPoint fun a b => a.label ≤ b.label :=
  ⟨fun a b => le_total a.label b.label⟩

/-- One `HashMap`-accumulation-then-sort pass of `get_usage_stats`: one
point per distinct key, whose value is the (wrapping `u64`) sum of `val`
over the events with that key, sorted ascending by label. (The
`HashMap`'s arbitrary iteration order is irrelevant: the keys are
distinct, so the sorted result is unique.) -/
def bucketize (reqs : List RequestLog) (key : RequestLog → String)
    (val : RequestLog → Nat) : List TimeSeriesPoint :=
  sortByLabel <| ((reqs.map key).dedup).map fun k =>
    { label := k, value := ((reqs.filter fun r => key r == k).map val).sum % 2 ^ 64 }

/-- The per-model rollup of `get_usage_stats` (lib.rs:2114-2125), sorted
descending by request count. (For models with equal request counts the
Rust order is the `HashMap`'s, which is unspecified; this embedding fixes
one order consistent with the sort.) -/
def model_rollup (reqs : List RequestLog) : List ModelUsage :=
  (((reqs.map (·.model)).dedup).map fun m =>
    { model := m
      requests := (reqs.filter fun r => r.model == m).length
      tokens := ((reqs.filter fun r => r.model == m).map req_tokens).sum % 2 ^ 64 }
  ).insertionSort fun a b => b.requests ≤ a.requests

/-- The aggregation body of `get_usage_stats` (lib.rs:2018-2142) over the
loaded record. `todayStart` is the epoch-ms of the most recent local
midnight (computed from the wall clock in Rust). -/
def compute_usage_stats (tz : Int) (todayStart : Nat) (history : RequestHistory) : UsageStats :=
  if history.requests.isEmpty then UsageStats.zero
  else
    let total_requests := history.requests.length
    let success_count := (history.requests.filter fun r => r.status < 400).length
    let today := history.requests.filter fun r => todayStart ≤ r.timestamp
    { total_requests := total_requests
      success_count := success_count
      failure_count := total_requests - success_count
      total_tokens := (history.total_tokens_in + history.total_tokens_out) % 2 ^ 64
      input_tokens := history.total_tokens_in
      output_tokens := history.total_tokens_out
      requests_today := today.length
      tokens_today := (today.map req_tokens).sum % 2 ^ 64
      models := model_rollup history.requests
      requests_by_day :=
        keepLast 14 (bucketize history.requests (fun r => local_day_key tz r.timestamp) fun _ => 1)
      tokens_by_day :=
        keepLast 14 (bucketize history.requests (fun r => local_day_key tz r.timestamp) req_tokens)
      requests_by_hour :=
        keepLast 24 (bucketize history.requests (fun r => local_hour_key tz r.timestamp) fun _ => 1)
      tokens_by_hour :=
        keepLast 24 (bucketize history.requests (fun r => local_hour_key tz r.timestamp) req_tokens) }

/-- `get_usage_stats` (lib.rs:2015-2142): load the persisted history and
aggregate it. -/
def get_usage_stats (tz : Int) (todayStart : Nat) (blob : PersistedBlob) : UsageStats :=
  compute_usage_stats tz todayStart (load_request_history blob)

/-! ### Process Supervisor (`start_proxy` lib.rs:785-1250,
`stop_proxy` lib.rs:1253-1287)

The state-machine embedding keeps exactly the shared state the two
commands read and write: the tracked `ProxyStatus`, the child-process
handle slot, and the Tailer's `log_watcher_running` flag. External
effects the commands branch on (the config write, the spawn, the kill)
become boolean inputs; purely best-effort steps (port reclamation,
management-API syncs, UI emits, sleeps) touch none of this state and
are elided. The third component of each result counts child-process
spawns (resp. reports whether a kill was attempted). -/

structure ProxyStatus where
  running : Bool
  port : Nat
  endpoint : String
deriving DecidableEq, Repr

/-- `ProxyStatus::default()` (lib.rs:40-48). -/
def ProxyStatus.init : ProxyStatus :=
  ⟨false, 8317, "http://localhost:8317/v1"⟩

structure SupervisorState where
  proxy_status : ProxyStatus
  proxy_process : Option Unit
  log_watcher_running : Bool
deriving DecidableEq, Repr

/-- `start_proxy` (lib.rs:785-1250). Returns the command's result, the
state after it, and the number of child processes spawned. -/
def start_proxy (st : SupervisorState) (port : Nat)
    (config_write_ok spawn_ok : Bool) :
    Except String ProxyStatus × SupervisorState × Nat :=
  if st.proxy_status.running then
    (.ok st.proxy_status, st, 0)
  else
    -- kill and drop any previously tracked child (errors ignored)
    let st := { st with proxy_process := none }
    if !config_write_ok then
      (.error "config write failed", st, 0)
    else if !spawn_ok then
      (.error "Failed to spawn sidecar", st, 0)
    else
      let st := { st with proxy_process := some () }
      -- stop any previous watcher, then start a new one
      let st := { st with log_watcher_running := true }
      let new_status : ProxyStatus :=
        { running := true
          port := port
          endpoint := "http://localhost:" ++ toString port ++ "/v1" }
      (.ok new_status, { st with proxy_status := new_status }, 1)

/-- `stop_proxy` (lib.rs:1253-1287). Returns the command's result, the
state after it, and whether a kill was attempted. -/
def stop_proxy (st : SupervisorState) (kill_ok : Bool) :
    Except String ProxyStatus × SupervisorState × Bool :=
  if !st.proxy_status.running then
    (.ok st.proxy_status, st, false)
  else
    let st := { st with log_watcher_running := false }
    match st.proxy_process with
    | some _ =>
      let st := { st with proxy_process := none }   -- `process.take()`
      if !kill_ok then
        (.error "Failed to kill process", st, true)
      else
        let status := { st.proxy_status with running := false }
        (.ok status, { st with proxy_status := status }, true)
    | none =>
      let status := { st.proxy_status with running := false }
      (.ok status, { st with proxy_status := status }, false)

/-! ### Log Tailer polling step (`start_log_watcher`, lib.rs:720-772) -/

/-- What one poll iteration of the watcher loop does after its sleep. -/
inductive WatcherAction where
  | sleepOnly
  | reset
  | readFrom (offset : Nat)
deriving DecidableEq, Repr

/-- One iteration of the polling loop: compare the current file size
(`none` when `fs::metadata` fails, which falls back to `last_pos`)
against `last_pos`. A decrease is rotation: reset position and reader to
the file start without reading. Growth reads from the current offset and
leaves `last_pos` at the new end of file. The result is the `last_pos`
for the next iteration and the action taken. -/
def watcher_poll_step (last_pos : Nat) (size? : Option Nat) : Nat × WatcherAction :=
  let current_size := size?.getD last_pos
  if current_size ≤ last_pos then
    if current_size < last_pos then (0, .reset) else (last_pos, .sleepOnly)
  else
    (current_size, .readFrom last_pos)

/-! ### Concrete sample data used by witnesses and counterexamples -/

/-- A minimal event generator with distinct timestamps. -/
def sampleEvent (i : Nat) : RequestLog :=
  ⟨"", i, "", "", "", "/p", 200, 0, none, none⟩

/-- An event at (timestamp 5, path "/p") with id "a". -/
def evA : RequestLog := ⟨"a", 5, "", "", "POST", "/p", 200, 0, none, none⟩

/-- An event at the same (timestamp, path) with a different id. -/
def evB : RequestLog := ⟨"b", 5, "", "", "POST", "/p", 200, 0, none, none⟩

/-- A one-event store holding `evA`. -/
def histA : RequestHistory := ⟨[evA], 0, 0, 0⟩

/-- The spec's scenario log line. -/
def lineScenario : String :=
  "[GIN] 2025/12/04 - 20:51:48 | 200 | 6.656s | ::1 | POST \"/api/provider/anthropic/v1/messages\""

/-- The captures of the GIN regex on `lineScenario`. -/
def capsScenario : GinCaptures :=
  ⟨"2025/12/04", "20:51:48", "200", "6.656s", "POST",
   "/api/provider/anthropic/v1/messages", none⟩

/-- A trackable line whose path has no provider segment but whose
`model=` token names a Claude model. -/
def lineChatCompletions : String :=
  "[GIN] 2025/12/04 - 20:51:48 | 200 | 65ms | ::1 | POST \"/v1/chat/completions\" | model=claude-3-opus"

/-- The provider resolution in the order the claim states it: (a) an
explicit provider segment embedded in the path, else (b) keyword
matching on the resolved model name (with (c) `"unknown"` as
`detect_provider_from_model`'s own fallback). Stated from the claim's
words, for comparison against the code's resolution. -/
def claim_provider_resolution (path model : String) : String :=
  match provider_from_amp_segment path with
  | some p => p
  | none => detect_provider_from_model model

/-- The event `parse_gin_log_line` produces from `lineScenario` with UTC
offset 0, wall clock 0 and counter 0. -/
def evScenario : RequestLog :=
  ⟨"req_1764881508000_0", 1764881508000, "claude", "unknown", "POST",
   "/api/provider/anthropic/v1/messages", 200, 6656, none, none⟩

/-- An event on 1970-01-01 (UTC offset 0). -/
def evDay1 : RequestLog := ⟨"d1", 0, "", "m", "GET", "/a", 200, 0, some 3, some 4⟩

/-- An event on 1970-01-02 (UTC offset 0). -/
def evDay2 : RequestLog := ⟨"d2", 86400000, "", "m", "GET", "/b", 500, 0, some 5, none⟩

/-- A persisted blob holding one event on each of two days. -/
def blobTwoDays : PersistedBlob := .valid ⟨[evDay1, evDay2], 0, 0, 0⟩

/-! ### Helper lemmas -/

lemma tailer_ingest_of_duplicate (h : RequestHistory) (e : RequestLog)
    (hd : (h.requests.any fun r =>
      r.timestamp == e.timestamp && r.path == e.path) = true) :
    tailer_ingest h e = h := by
  unfold tailer_ingest
  simp [hd]

/-! ### C1 — History Store deduplication -/

/-- **C1** (counterexample): the explicit add-event command does *not*
deduplicate by `(timestamp, path)`: starting from a store that already
holds `evA` at `(5, "/p")`, adding `evB` — same timestamp and path,
different id — inserts it, leaving two events with that pair. -/
theorem add_request_ignores_timestamp_path_dedup :
    (histA.requests.any fun r =>
      r.timestamp == evB.timestamp && r.path == evB.path) = true ∧
    ((add_request_to_history histA evB).requests.filter fun r =>
      r.timestamp == evB.timestamp && r.path == evB.path).length = 2 := by
  constructor
  · decide
  · decide

/-- **C1** (amended): appending an event whose `(timestamp, path)` pair
is already stored inserts nothing and leaves the record unchanged *on
the Tailer's ingestion path*; the explicit add-event command instead
deduplicates by event `id` alone — it skips insertion exactly when the
`id` is already present — and unconditionally adds the event's token
counts (and estimated cost) to the running totals. -/
theorem history_dedup_behaviour (h : RequestHistory) (e : RequestLog)
    (hdup : (h.requests.any fun r =>
      r.timestamp == e.timestamp && r.path == e.path) = true) :
    tailer_ingest h e = h ∧
    ((h.requests.any fun r => r.id == e.id) = true →
      (add_request_to_history h e).requests = h.requests) ∧
    ((h.requests.any fun r => r.id == e.id) = false →
      (add_request_to_history h e).requests = h.requests ++ [e]) ∧
    (add_request_to_history h e).total_tokens_in
      = (h.total_tokens_in + e.tokens_in.getD 0) % 2 ^ 64 ∧
    (add_request_to_history h e).total_tokens_out
      = (h.total_tokens_out + e.tokens_out.getD 0) % 2 ^ 64 ∧
    (add_request_to_history h e).total_cost_usd
      = h.total_cost_usd
        + estimate_request_cost e.model (e.tokens_in.getD 0) (e.tokens_out.getD 0) := by
  refine ⟨tailer_ingest_of_duplicate h e hdup, ?_, ?_, ?_, ?_, ?_⟩
  · intro hid; unfold add_request_to_history; simp [hid]
  · intro hid; unfold add_request_to_history; simp [hid]
  · unfold add_request_to_history
    cases hid : h.requests.any fun r => r.id == e.id <;> simp [hid]
  · unfold add_request_to_history
    cases hid : h.requests.any fun r => r.id == e.id <;> simp [hid]
  · unfold add_request_to_history
    cases hid : h.requests.any fun r => r.id == e.id <;> simp [hid]

/-- **C1** witness: the amended statement applied to `histA` and `evB`. -/
theorem history_dedup_behaviour_witness :
    ((histA.requests.any fun r =>
      r.timestamp == evB.timestamp && r.path == evB.path) = true) ∧
    (tailer_ingest histA evB = histA ∧
    ((histA.requests.any fun r => r.id == evB.id) = true →
      (add_request_to_history histA evB).requests = histA.requests) ∧
    ((histA.requests.any fun r => r.id == evB.id) = false →
      (add_request_to_history histA evB).requests = histA.requests ++ [evB]) ∧
    (add_request_to_history histA evB).total_tokens_in
      = (histA.total_tokens_in + evB.tokens_in.getD 0) % 2 ^ 64 ∧
    (add_request_to_history histA evB).total_tokens_out
      = (histA.total_tokens_out + evB.tokens_out.getD 0) % 2 ^ 64 ∧
    (add_request_to_history histA evB).total_cost_usd
      = histA.total_cost_usd
        + estimate_request_cost evB.model (evB.tokens_in.getD 0) (evB.tokens_out.getD 0)) :=
  ⟨by decide, history_dedup_behaviour histA evB (by decide)⟩

/-! ### C8 — Load never fails -/

/-- **C8**: `load_request_history` is total over every state of the
persisted blob; each failure state (missing file, unreadable file,
unparseable contents) yields the empty record, and only a valid blob
yields its stored record. -/
theorem load_request_history_absorbs_corruption :
    load_request_history .missing = RequestHistory.empty ∧
    load_request_history .unreadable = RequestHistory.empty ∧
    load_request_history .unparseable = RequestHistory.empty ∧
    ∀ h : RequestHistory, load_request_history (.valid h) = h := by
  exact ⟨rfl, rfl, rfl, fun _ => rfl⟩

/-! ### C4 — Start() idempotence -/

/-- **C4**: if the tracked status already shows `running`, `start_proxy`
returns it unchanged with no spawn; consequently two immediate `Start()`
calls return the same `ProxyStatus` both times, the second leaves the
state untouched, and exactly one child is spawned in total. -/
theorem start_proxy_idempotent (st : SupervisorState) (port : Nat)
    (cw sp : Bool) :
    (st.proxy_status.running = true →
      start_proxy st port cw sp = (.ok st.proxy_status, st, 0)) ∧
    (st.proxy_status.running = false →
      (start_proxy st port true true).1
        = .ok (start_proxy st port true true).2.1.proxy_status ∧
      start_proxy (start_proxy st port true true).2.1 port cw sp
        = (.ok (start_proxy st port true true).2.1.proxy_status,
           (start_proxy st port true true).2.1, 0) ∧
      (start_proxy st port true true).2.2 = 1) := by
  constructor
  · intro h
    unfold start_proxy
    simp [h]
  · intro h
    unfold start_proxy
    simp [h]

/-- **C4** witness: starting twice from the default (stopped) state. -/
theorem start_proxy_idempotent_witness :
    ((⟨ProxyStatus.init, none, false⟩ : SupervisorState).proxy_status.running = false) ∧
    ((start_proxy ⟨ProxyStatus.init, none, false⟩ 8317 true true).1
        = .ok (start_proxy ⟨ProxyStatus.init, none, false⟩ 8317 true true).2.1.proxy_status ∧
      start_proxy (start_proxy ⟨ProxyStatus.init, none, false⟩ 8317 true true).2.1 8317 true true
        = (.ok (start_proxy ⟨ProxyStatus.init, none, false⟩ 8317 true true).2.1.proxy_status,
           (start_proxy ⟨ProxyStatus.init, none, false⟩ 8317 true true).2.1, 0) ∧
      (start_proxy ⟨ProxyStatus.init, none, false⟩ 8317 true true).2.2 = 1) :=
  ⟨rfl, (start_proxy_idempotent ⟨ProxyStatus.init, none, false⟩ 8317 true true).2 rfl⟩

/-! ### C10 — Stop() after a failed kill -/

/-- **C10**: with the proxy running and a tracked child handle, a
`stop_proxy` whose kill fails returns an error with `running` still
`true`, but has already cleared the Tailer's run flag and removed the
child handle; the next `stop_proxy` call (with any kill outcome)
succeeds, sets `running := false`, and attempts no kill. -/
theorem stop_proxy_failed_kill_recovery (st : SupervisorState)
    (hrun : st.proxy_status.running = true)
    (hchild : st.proxy_process = some ()) :
    (∃ msg, (stop_proxy st false).1 = .error msg) ∧
    (stop_proxy st false).2.1.proxy_status = st.proxy_status ∧
    (stop_proxy st false).2.1.log_watcher_running = false ∧
    (stop_proxy st false).2.1.proxy_process = none ∧
    (stop_proxy st false).2.2 = true ∧
    (∀ k : Bool,
      (stop_proxy (stop_proxy st false).2.1 k).1
        = .ok (stop_proxy (stop_proxy st false).2.1 k).2.1.proxy_status ∧
      (stop_proxy (stop_proxy st false).2.1 k).2.1.proxy_status.running = false ∧
      (stop_proxy (stop_proxy st false).2.1 k).2.2 = false) := by
  unfold stop_proxy
  simp [hrun, hchild]

/-- **C10** witness: the recovery sequence from a concrete running
state. -/
theorem stop_proxy_failed_kill_recovery_witness :
    ((⟨⟨true, 8317, "http://localhost:8317/v1"⟩, some (), true⟩ :
        SupervisorState).proxy_status.running = true) ∧
    ((⟨⟨true, 8317, "http://localhost:8317/v1"⟩, some (), true⟩ :
        SupervisorState).proxy_process = some ()) ∧
    ((∃ msg, (stop_proxy ⟨⟨true, 8317, "http://localhost:8317/v1"⟩, some (), true⟩ false).1
        = .error msg) ∧
    (stop_proxy ⟨⟨true, 8317, "http://localhost:8317/v1"⟩, some (), true⟩ false).2.1.proxy_status
      = (⟨⟨true, 8317, "http://localhost:8317/v1"⟩, some (), true⟩ :
          SupervisorState).proxy_status ∧
    (stop_proxy ⟨⟨true, 8317, "http://localhost:8317/v1"⟩, some (), true⟩
        false).2.1.log_watcher_running = false ∧
    (stop_proxy ⟨⟨true, 8317, "http://localhost:8317/v1"⟩, some (), true⟩
        false).2.1.proxy_process = none ∧
    (stop_proxy ⟨⟨true, 8317, "http://localhost:8317/v1"⟩, some (), true⟩ false).2.2 = true ∧
    (∀ k : Bool,
      (stop_proxy (stop_proxy ⟨⟨true, 8317, "http://localhost:8317/v1"⟩, some (), true⟩
          false).2.1 k).1
        = .ok (stop_proxy (stop_proxy
            ⟨⟨true, 8317, "http://localhost:8317/v1"⟩, some (), true⟩ false).2.1
            k).2.1.proxy_status ∧
      (stop_proxy (stop_proxy ⟨⟨true, 8317, "http://localhost:8317/v1"⟩, some (), true⟩
          false).2.1 k).2.1.proxy_status.running = false ∧
      (stop_proxy (stop_proxy ⟨⟨true, 8317, "http://localhost:8317/v1"⟩, some (), true⟩
          false).2.1 k).2.2 = false)) :=
  ⟨rfl, rfl,
    stop_proxy_failed_kill_recovery
      ⟨⟨true, 8317, "http://localhost:8317/v1"⟩, some (), true⟩ rfl rfl⟩

/-! ### C9 — rotation resets the read offset; dedup protects the store -/

/-- **C9**: when a poll observes the file size strictly below `last_pos`,
the iteration resets the position and reader to offset 0 without
reading; a subsequent poll that sees any content then reads from offset
0; and re-parsed lines whose `(timestamp, path)` is already stored leave
the History Store unchanged under the Tailer's ingestion. -/
theorem watcher_rotation_reset (last_pos size : Nat) (hshrunk : size < last_pos)
    (hist : RequestHistory) (e : RequestLog)
    (hdup : (hist.requests.any fun r =>
      r.timestamp == e.timestamp && r.path == e.path) = true) :
    watcher_poll_step last_pos (some size) = (0, .reset) ∧
    (∀ size' : Nat, 0 < size' →
      watcher_poll_step 0 (some size') = (size', .readFrom 0)) ∧
    tailer_ingest hist e = hist := by
  refine ⟨?_, ?_, tailer_ingest_of_duplicate hist e hdup⟩
  · unfold watcher_poll_step
    simp [Nat.le_of_lt hshrunk, hshrunk]
  · intro size' hpos
    unfold watcher_poll_step
    simp [Nat.not_le.mpr hpos, hpos]

/-- **C9** witness: a shrink from 100 to 40 resets; the recorded event
`evA` is not re-ingested. -/
theorem watcher_rotation_reset_witness :
    (40 < 100 ∧ (histA.requests.any fun r =>
      r.timestamp == evA.timestamp && r.path == evA.path) = true) ∧
    (watcher_poll_step 100 (some 40) = (0, .reset) ∧
    (∀ size' : Nat, 0 < size' →
      watcher_poll_step 0 (some size') = (size', .readFrom 0)) ∧
    tailer_ingest histA evA = histA) :=
  ⟨⟨by decide, by decide⟩, watcher_rotation_reset 100 40 (by decide) histA evA (by decide)⟩

/-! ### C2 — retention bound and front-trimming -/

lemma keepLast_eq_drop {α : Type} (n : Nat) (l : List α) :
    keepLast n l = l.drop (l.length - n) := by
  unfold keepLast
  split_ifs with h
  · rfl
  · have : l.length - n = 0 := by omega
    simp [this]

lemma keepLast_append {α : Type} (n : Nat) (l l₂ : List α) :
    keepLast n (keepLast n l ++ l₂) = keepLast n (l ++ l₂) := by
  simp only [keepLast_eq_drop]
  rw [show l.drop (l.length - n) ++ l₂ = (l ++ l₂).drop (l.length - n) from
    (List.drop_append_of_le_length (by omega)).symm]
  rw [List.drop_drop]
  congr 1
  simp only [List.length_drop, List.length_append]
  omega

/-- A non-duplicate ingestion pushes the event, trims to the last 500
from the front, and leaves the running totals untouched. -/
lemma tailer_ingest_of_not_duplicate (h : RequestHistory) (e : RequestLog)
    (hd : (h.requests.any fun r =>
      r.timestamp == e.timestamp && r.path == e.path) = false) :
    tailer_ingest h e = { h with requests := keepLast 500 (h.requests ++ [e]) } := by
  unfold tailer_ingest save_request_history keepLast
  simp only [hd, Bool.false_eq_true, if_false]
  split_ifs with h1 h2 <;> simp_all
  omega

lemma tailer_fold_keepLast (events : List RequestLog) :
    ∀ (processed : List RequestLog) (tIn tOut : Nat) (c : ℚ),
    ((processed ++ events).Pairwise fun a b =>
      ¬(a.timestamp = b.timestamp ∧ a.path = b.path)) →
    (events.foldl tailer_ingest ⟨keepLast 500 processed, tIn, tOut, c⟩).requests
      = keepLast 500 (processed ++ events) := by
  induction events with
  | nil => intro processed tIn tOut c _; simp
  | cons e rest ih =>
    intro processed tIn tOut c hpw
    have hne : ∀ p ∈ processed, ¬(p.timestamp = e.timestamp ∧ p.path = e.path) := by
      intro p hp
      exact (List.pairwise_append.mp hpw).2.2 p hp e (List.mem_cons_self e rest)
    have hdup : ((keepLast 500 processed).any fun r =>
        r.timestamp == e.timestamp && r.path == e.path) = false := by
      rw [List.any_eq_false]
      intro r hr
      have hrp : r ∈ processed := by
        rw [keepLast_eq_drop] at hr
        exact List.drop_subset _ _ hr
      have := hne r hrp
      simp only [Bool.and_eq_true, beq_iff_eq]
      tauto
    rw [List.foldl_cons, tailer_ingest_of_not_duplicate _ _ hdup]
    have step := ih (processed ++ [e]) tIn tOut c (by
      rw [List.append_assoc]
      simpa using hpw)
    simp only [keepLast_append] at step ⊢
    simpa [List.append_assoc] using step

/-- **C2**: every persist trims the stored sequence to length at most
500, removing only from the front (the result is a `drop` of the input);
and folding 501 pairwise-distinct events through the Tailer's ingestion
from the empty store leaves exactly the last 500 in their original
relative order. -/
theorem history_retention_bound (events : List RequestLog)
    (hdist : events.Pairwise fun a b =>
      ¬(a.timestamp = b.timestamp ∧ a.path = b.path))
    (hlen : events.length = 501) :
    (∀ h : RequestHistory,
      (save_request_history h).requests.length ≤ 500 ∧
      (save_request_history h).requests
        = h.requests.drop (h.requests.length - 500)) ∧
    (events.foldl tailer_ingest RequestHistory.empty).requests
      = events.drop 1 := by
  constructor
  · intro h
    unfold save_request_history
    split_ifs with hgt
    · exact ⟨by simp only [List.length_drop]; omega, rfl⟩
    · refine ⟨by omega, ?_⟩
      have hz : h.requests.length - 500 = 0 := by omega
      simp [hz]
  · have base : RequestHistory.empty
        = (⟨keepLast 500 [], 0, 0, 0⟩ : RequestHistory) := by rfl
    rw [base, tailer_fold_keepLast events [] 0 0 0 (by simpa using hdist)]
    rw [keepLast_eq_drop]
    simp [hlen]

/-- **C2** witness: 501 events with distinct timestamps. -/
theorem history_retention_bound_witness :
    (((List.range 501).map sampleEvent).Pairwise fun a b =>
      ¬(a.timestamp = b.timestamp ∧ a.path = b.path)) ∧
    ((List.range 501).map sampleEvent).length = 501 ∧
    ((∀ h : RequestHistory,
      (save_request_history h).requests.length ≤ 500 ∧
      (save_request_history h).requests
        = h.requests.drop (h.requests.length - 500)) ∧
    (((List.range 501).map sampleEvent).foldl tailer_ingest RequestHistory.empty).requests
      = ((List.range 501).map sampleEvent).drop 1) := by
  have hpw : ((List.range 501).map sampleEvent).Pairwise fun a b =>
      ¬(a.timestamp = b.timestamp ∧ a.path = b.path) := by
    rw [List.pairwise_map]
    exact (List.pairwise_lt_range 501).imp fun hlt heq => by
      simp only [sampleEvent] at heq
      omega
  exact ⟨hpw, by simp,
    history_retention_bound ((List.range 501).map sampleEvent) hpw (by simp)⟩

/-! ### C3 — provider resolution order -/

/-- **C3** (counterexample): on a line whose path has no embedded
provider segment and whose `model=` token resolves to a Claude model,
the claimed order (segment, else model keywords) predicts `"claude"`,
but the parser yields `"openai-compat"` — the endpoint-shape inference
from the path wins over model-keyword matching. -/
theorem provider_resolution_skips_model_keywords :
    (parse_gin_log_line 0 0 0 lineChatCompletions).map
        (fun ev => (ev.provider, claim_provider_resolution ev.path ev.model))
      = some ("openai-compat", "claude") ∧
    ("openai-compat" : String) ≠ "claude" := by
  exact ⟨rfl, by decide⟩

/-- **C3** (amended): for every parsed event, the provider is resolved
in this order: (a) an explicit provider segment embedded in the path if
present, otherwise (b) inference from the endpoint shape of the path
(`messages` paths → claude, `chat/completions` paths → openai-compat,
`v1beta`/`generateContent` paths → gemini), otherwise (c) keyword
matching against the resolved model name, whose own fallback is (d) the
literal `"unknown"`. -/
theorem provider_resolution_order (tz : Int) (now ctr : Nat) (line : String)
    (ev : RequestLog) (h : parse_gin_log_line tz now ctr line = some ev) :
    ev.provider =
      match provider_from_amp_segment ev.path with
      | some p => p
      | none =>
        match provider_from_endpoint_shape ev.path with
        | some p => p
        | none => detect_provider_from_model ev.model := by
  unfold parse_gin_log_line at h
  split_ifs at h
  cases hsearch : ginSearch line.data with
  | none => rw [hsearch] at h; exact Option.noConfusion h
  | some caps =>
    rw [hsearch] at h
    simp only [Option.some_bind] at h
    cases hst : parseU16 caps.status.data with
    | none => rw [hst] at h; exact Option.noConfusion h
    | some v =>
      rw [hst] at h
      simp only [Option.some_bind, Option.some_inj] at h
      subst h
      unfold detect_provider_from_path
      cases hamp : provider_from_amp_segment caps.path <;>
        cases hshape : provider_from_endpoint_shape caps.path <;>
          simp [hamp, hshape]

/-- **C3** witness: the amended resolution at the spec's scenario line
(provider segment present: `"anthropic"` maps to `"claude"`). -/
theorem provider_resolution_order_witness :
    parse_gin_log_line 0 0 0 lineScenario = some evScenario ∧
    evScenario.provider =
      match provider_from_amp_segment evScenario.path with
      | some p => p
      | none =>
        match provider_from_endpoint_shape evScenario.path with
        | some p => p
        | none => detect_provider_from_model evScenario.model :=
  ⟨by with_unfolding_all rfl,
   provider_resolution_order 0 0 0 lineScenario evScenario
     (by with_unfolding_all rfl)⟩

/-! ### C5 — parse echoes the captured substrings -/

/-- **C5**: for every line that matches the GIN grammar (producing
captures `caps`), passes the marker, denylist and trackable filters, and
whose status digits fit `u16`, `parse_gin_log_line` returns an event
whose `status`, `method` and `path` are exactly the captured
substrings. -/
theorem parse_echoes_captures (tz : Int) (now ctr : Nat) (line : String)
    (caps : GinCaptures) (v : Nat)
    (hmark : strContains line "[GIN]" = true)
    (hdeny : gin_denylisted line = false)
    (htrack : gin_trackable line = true)
    (hmatch : ginSearch line.data = some caps)
    (hstatus : parseU16 caps.status.data = some v) :
    (parse_gin_log_line tz now ctr line).map
        (fun ev => (ev.status, ev.method, ev.path))
      = some (v, caps.method, caps.path) := by
  simp [parse_gin_log_line, hmark, hdeny, htrack, hmatch, hstatus]

/-- **C5** witness: the scenario line, whose captured status `"200"`,
method `"POST"` and path are echoed. -/
theorem parse_echoes_captures_witness :
    strContains lineScenario "[GIN]" = true ∧
    gin_denylisted lineScenario = false ∧
    gin_trackable lineScenario = true ∧
    ginSearch lineScenario.data = some capsScenario ∧
    parseU16 capsScenario.status.data = some 200 ∧
    (parse_gin_log_line 0 0 0 lineScenario).map
        (fun ev => (ev.status, ev.method, ev.path))
      = some (200, capsScenario.method, capsScenario.path) :=
  ⟨rfl, rfl, rfl, rfl, rfl,
   parse_echoes_captures 0 0 0 lineScenario capsScenario 200
     rfl rfl rfl rfl rfl⟩

/-! ### C6 — duration-token conversion -/

/-- **C6**: the duration conversion is a total function (its type is
`String → Nat`, mirroring the Rust code's `unwrap_or` defaults, so no
token is an error): `"6.656s"` converts to 6656 ms, `"65ms"` to 65 ms,
and every token whose numeric part fails to parse converts to 0 ms. -/
theorem duration_conversion_total (s : String)
    (hbad : duration_token_parses s = false) :
    parse_duration_token "6.656s" = 6656 ∧
    parse_duration_token "65ms" = 65 ∧
    parse_duration_token s = 0 := by
  refine ⟨by with_unfolding_all rfl, by decide, ?_⟩
  unfold duration_token_parses at hbad
  unfold parse_duration_token
  split_ifs at hbad ⊢ with h1 h2
  · cases hopt : parseU64 (trimEndMatches s.data "ms".data) <;>
      simp [hopt] at hbad ⊢
  · cases hopt : parseF64 (trimEndMatches s.data "s".data) <;>
      simp [hopt] at hbad ⊢
  · rfl

/-- **C6** witness: `"x.ys"` has an unparseable numeric part. -/
theorem duration_conversion_total_witness :
    duration_token_parses "x.ys" = false ∧
    (parse_duration_token "6.656s" = 6656 ∧
     parse_duration_token "65ms" = 65 ∧
     parse_duration_token "x.ys" = 0) :=
  ⟨by decide, duration_conversion_total "x.ys" (by decide)⟩

/-! ### C7 — day/hour bucketing of the Usage Aggregator -/

lemma keepLast_length_le {α : Type} (n : Nat) (l : List α) :
    (keepLast n l).length ≤ n := by
  rw [keepLast_eq_drop]
  simp only [List.length_drop]
  omega

lemma keepLast_suffix {α : Type} (n : Nat) (l : List α) :
    keepLast n l <:+ l := by
  rw [keepLast_eq_drop]
  exact List.drop_suffix _ _

lemma keepLast_of_length_le {α : Type} {n : Nat} {l : List α}
    (h : l.length ≤ n) : keepLast n l = l := by
  rw [keepLast_eq_drop]
  have hz : l.length - n = 0 := by omega
  simp [hz]

lemma sum_map_ones {α : Type} (l : List α) :
    (l.map fun _ => (1 : Nat)).sum = l.length := by
  induction l with
  | nil => rfl
  | cons a t ih => simp [ih]; omega

lemma sortByLabel_sorted (pts : List TimeSeriesPoint) :
    (sortByLabel pts).Pairwise fun a b => a.label ≤ b.label :=
  List.sorted_insertionSort _ pts

lemma sortByLabel_length (pts : List TimeSeriesPoint) :
    (sortByLabel pts).length = pts.length :=
  (List.perm_insertionSort _ pts).length_eq

lemma mem_sortByLabel {p : TimeSeriesPoint} {pts : List TimeSeriesPoint} :
    p ∈ sortByLabel pts ↔ p ∈ pts :=
  List.mem_insertionSort _

lemma bucketize_length (reqs : List RequestLog) (key : RequestLog → String)
    (val : RequestLog → Nat) :
    (bucketize reqs key val).length = ((reqs.map key).dedup).length := by
  unfold bucketize
  rw [sortByLabel_length, List.length_map]

lemma mem_bucketize {p : TimeSeriesPoint} {reqs : List RequestLog}
    {key : RequestLog → String} {val : RequestLog → Nat} :
    p ∈ bucketize reqs key val ↔
      ∃ k ∈ (reqs.map key).dedup,
        p = ⟨k, ((reqs.filter fun r => key r == k).map val).sum % 2 ^ 64⟩ := by
  unfold bucketize
  rw [mem_sortByLabel, List.mem_map]
  constructor
  · rintro ⟨k, hk, rfl⟩; exact ⟨k, hk, rfl⟩
  · rintro ⟨k, hk, rfl⟩; exact ⟨k, hk, rfl⟩

lemma bucketize_labels_sorted (reqs : List RequestLog) (key : RequestLog → String)
    (val : RequestLog → Nat) :
    ((bucketize reqs key val).map fun p => p.label).Sorted (· ≤ ·) := by
  unfold List.Sorted
  rw [List.pairwise_map]
  exact sortByLabel_sorted _

/-- Shape of one retained series `keepLast n (bucketize reqs key val)`:
bounded length, labels sorted ascending, a suffix of the fully sorted
bucket list, and every entry's value the (wrapping) per-bucket sum of
`val` over the events carrying its label. -/
lemma series_shape (reqs : List RequestLog) (key : RequestLog → String)
    (val : RequestLog → Nat) (n : Nat) :
    (keepLast n (bucketize reqs key val)).length ≤ n ∧
    ((keepLast n (bucketize reqs key val)).map (fun p => p.label)).Sorted (· ≤ ·) ∧
    keepLast n (bucketize reqs key val) <:+ bucketize reqs key val ∧
    ∀ p ∈ keepLast n (bucketize reqs key val),
      p.value = ((reqs.filter fun r => key r == p.label).map val).sum % 2 ^ 64 := by
  refine ⟨keepLast_length_le _ _,
    List.Pairwise.sublist (((keepLast_suffix n _).sublist).map _)
      (bucketize_labels_sorted reqs key val),
    keepLast_suffix _ _, ?_⟩
  intro p hp
  have hp' : p ∈ bucketize reqs key val := ((keepLast_suffix n _).sublist).subset hp
  obtain ⟨k, _, rfl⟩ := mem_bucketize.mp hp'
  rfl

/-- **C7**: the aggregator's time series group events into day
(`YYYY-MM-DD`) and hour (`YYYY-MM-DDTHH`) buckets of the event's local
timezone; for every blob, each of the four series (request counts and
token sums, by day and by hour) is sorted ascending by label, holds at
most 14 day- resp. 24 hour-buckets, is a suffix (the most recent
labels) of the fully sorted bucket list, and every entry's value is the
per-bucket count resp. (wrapping) token sum over exactly the events
carrying its label; and a history whose events span exactly the two day
keys `d1, d2` yields exactly two day-series entries, each counting
(resp. summing the tokens of) only the events of its own day. -/
theorem usage_stats_two_day_series (tz : Int) (todayStart : Nat)
    (blob : PersistedBlob) (d1 d2 : String)
    (hkeys : ((load_request_history blob).requests.map
      (fun r => local_day_key tz r.timestamp)).dedup = [d1, d2]) :
    (∀ blob' : PersistedBlob,
      (get_usage_stats tz todayStart blob').requests_by_day.length ≤ 14 ∧
      ((get_usage_stats tz todayStart blob').requests_by_day.map
        (fun p => p.label)).Sorted (· ≤ ·) ∧
      (get_usage_stats tz todayStart blob').requests_by_day
        <:+ bucketize (load_request_history blob').requests
            (fun r => local_day_key tz r.timestamp) (fun _ => 1) ∧
      (∀ p ∈ (get_usage_stats tz todayStart blob').requests_by_day,
        p.value = ((load_request_history blob').requests.filter
          (fun r => local_day_key tz r.timestamp == p.label)).length % 2 ^ 64) ∧
      (get_usage_stats tz todayStart blob').tokens_by_day.length ≤ 14 ∧
      ((get_usage_stats tz todayStart blob').tokens_by_day.map
        (fun p => p.label)).Sorted (· ≤ ·) ∧
      (get_usage_stats tz todayStart blob').tokens_by_day
        <:+ bucketize (load_request_history blob').requests
            (fun r => local_day_key tz r.timestamp) req_tokens ∧
      (∀ p ∈ (get_usage_stats tz todayStart blob').tokens_by_day,
        p.value = (((load_request_history blob').requests.filter
          (fun r => local_day_key tz r.timestamp == p.label)).map
            req_tokens).sum % 2 ^ 64) ∧
      (get_usage_stats tz todayStart blob').requests_by_hour.length ≤ 24 ∧
      ((get_usage_stats tz todayStart blob').requests_by_hour.map
        (fun p => p.label)).Sorted (· ≤ ·) ∧
      (get_usage_stats tz todayStart blob').requests_by_hour
        <:+ bucketize (load_request_history blob').requests
            (fun r => local_hour_key tz r.timestamp) (fun _ => 1) ∧
      (∀ p ∈ (get_usage_stats tz todayStart blob').requests_by_hour,
        p.value = ((load_request_history blob').requests.filter
          (fun r => local_hour_key tz r.timestamp == p.label)).length % 2 ^ 64) ∧
      (get_usage_stats tz todayStart blob').tokens_by_hour.length ≤ 24 ∧
      ((get_usage_stats tz todayStart blob').tokens_by_hour.map
        (fun p => p.label)).Sorted (· ≤ ·) ∧
      (get_usage_stats tz todayStart blob').tokens_by_hour
        <:+ bucketize (load_request_history blob').requests
            (fun r => local_hour_key tz r.timestamp) req_tokens ∧
      (∀ p ∈ (get_usage_stats tz todayStart blob').tokens_by_hour,
        p.value = (((load_request_history blob').requests.filter
          (fun r => local_hour_key tz r.timestamp == p.label)).map
            req_tokens).sum % 2 ^ 64)) ∧
    (get_usage_stats tz todayStart blob).requests_by_day.length = 2 ∧
    (get_usage_stats tz todayStart blob).tokens_by_day.length = 2 ∧
    (∀ p ∈ (get_usage_stats tz todayStart blob).requests_by_day,
      p.label ∈ [d1, d2] ∧
      p.value = ((load_request_history blob).requests.filter
        (fun r => local_day_key tz r.timestamp == p.label)).length % 2 ^ 64) ∧
    (∀ p ∈ (get_usage_stats tz todayStart blob).tokens_by_day,
      p.label ∈ [d1, d2] ∧
      p.value = (((load_request_history blob).requests.filter
        (fun r => local_day_key tz r.timestamp == p.label)).map
          req_tokens).sum % 2 ^ 64) := by
  have hday2 : ∀ val : RequestLog → Nat,
      (bucketize (load_request_history blob).requests
        (fun r => local_day_key tz r.timestamp) val).length = 2 := by
    intro val
    rw [bucketize_length, hkeys]
    rfl
  have hne : (load_request_history blob).requests.isEmpty = false := by
    cases hreq : (load_request_history blob).requests with
    | nil => rw [hreq] at hkeys; simp at hkeys
    | cons a t => rfl
  have hproj : ∀ b : PersistedBlob,
      (load_request_history b).requests.isEmpty = false →
      (get_usage_stats tz todayStart b).requests_by_day
        = keepLast 14 (bucketize (load_request_history b).requests
            (fun r => local_day_key tz r.timestamp) (fun _ => 1)) ∧
      (get_usage_stats tz todayStart b).tokens_by_day
        = keepLast 14 (bucketize (load_request_history b).requests
            (fun r => local_day_key tz r.timestamp) req_tokens) ∧
      (get_usage_stats tz todayStart b).requests_by_hour
        = keepLast 24 (bucketize (load_request_history b).requests
            (fun r => local_hour_key tz r.timestamp) (fun _ => 1)) ∧
      (get_usage_stats tz todayStart b).tokens_by_hour
        = keepLast 24 (bucketize (load_request_history b).requests
            (fun r => local_hour_key tz r.timestamp) req_tokens) := by
    intro b hb
    unfold get_usage_stats compute_usage_stats
    rw [if_neg (by simp [hb])]
    exact ⟨rfl, rfl, rfl, rfl⟩
  have hrd := (hproj blob hne).1
  have htd := (hproj blob hne).2.1
  have hkeep14 : ∀ val : RequestLog → Nat,
      keepLast 14 (bucketize (load_request_history blob).requests
        (fun r => local_day_key tz r.timestamp) val)
      = bucketize (load_request_history blob).requests
          (fun r => local_day_key tz r.timestamp) val := by
    intro val
    exact keepLast_of_length_le (by rw [hday2]; omega)
  refine ⟨?_, ?_, ?_, ?_, ?_⟩
  · -- general shape facts for all four series
    intro blob'
    cases hb : (load_request_history blob').requests.isEmpty with
    | true =>
      have hz : get_usage_stats tz todayStart blob' = UsageStats.zero := by
        unfold get_usage_stats compute_usage_stats
        rw [if_pos (by simp [hb])]
      rw [hz]
      refine ⟨?_, ?_, ⟨_, List.append_nil _⟩, ?_, ?_, ?_, ⟨_, List.append_nil _⟩, ?_,
        ?_, ?_, ⟨_, List.append_nil _⟩, ?_, ?_, ?_, ⟨_, List.append_nil _⟩, ?_⟩ <;>
        simp [UsageStats.zero]
    | false =>
      obtain ⟨h1, h2, h3, h4⟩ := hproj blob' hb
      rw [h1, h2, h3, h4]
      obtain ⟨la, sa, fa, va⟩ := series_shape (load_request_history blob').requests
        (fun r => local_day_key tz r.timestamp) (fun _ => 1) 14
      obtain ⟨lb, sb, fb, vb⟩ := series_shape (load_request_history blob').requests
        (fun r => local_day_key tz r.timestamp) req_tokens 14
      obtain ⟨lc, sc, fc, vc⟩ := series_shape (load_request_history blob').requests
        (fun r => local_hour_key tz r.timestamp) (fun _ => 1) 24
      obtain ⟨ld, sd, fd, vd⟩ := series_shape (load_request_history blob').requests
        (fun r => local_hour_key tz r.timestamp) req_tokens 24
      refine ⟨la, sa, fa, ?_, lb, sb, fb, vb, lc, sc, fc, ?_, ld, sd, fd, vd⟩
      · intro p hp
        have hv := va p hp
        rwa [sum_map_ones] at hv
      · intro p hp
        have hv := vc p hp
        rwa [sum_map_ones] at hv
  · rw [hrd, hkeep14, hday2]
  · rw [htd, hkeep14, hday2]
  · intro p hp
    rw [hrd, hkeep14] at hp
    obtain ⟨k, hk, rfl⟩ := mem_bucketize.mp hp
    rw [hkeys] at hk
    refine ⟨hk, ?_⟩
    simp only [sum_map_ones]
  · intro p hp
    rw [htd, hkeep14] at hp
    obtain ⟨k, hk, rfl⟩ := mem_bucketize.mp hp
    rw [hkeys] at hk
    exact ⟨hk, rfl⟩

/-- **C7** witness: a blob holding one event on 1970-01-01 and one on
1970-01-02 (UTC offset 0). -/
theorem usage_stats_two_day_series_witness :
    ((load_request_history blobTwoDays).requests.map
      (fun r => local_day_key 0 r.timestamp)).dedup = ["1970-01-01", "1970-01-02"] ∧
    ((∀ blob' : PersistedBlob,
      (get_usage_stats 0 0 blob').requests_by_day.length ≤ 14 ∧
      ((get_usage_stats 0 0 blob').requests_by_day.map
        (fun p => p.label)).Sorted (· ≤ ·) ∧
      (get_usage_stats 0 0 blob').requests_by_day
        <:+ bucketize (load_request_history blob').requests
            (fun r => local_day_key 0 r.timestamp) (fun _ => 1) ∧
      (∀ p ∈ (get_usage_stats 0 0 blob').requests_by_day,
        p.value = ((load_request_history blob').requests.filter
          (fun r => local_day_key 0 r.timestamp == p.label)).length % 2 ^ 64) ∧
      (get_usage_stats 0 0 blob').tokens_by_day.length ≤ 14 ∧
      ((get_usage_stats 0 0 blob').tokens_by_day.map
        (fun p => p.label)).Sorted (· ≤ ·) ∧
      (get_usage_stats 0 0 blob').tokens_by_day
        <:+ bucketize (load_request_history blob').requests
            (fun r => local_day_key 0 r.timestamp) req_tokens ∧
      (∀ p ∈ (get_usage_stats 0 0 blob').tokens_by_day,
        p.value = (((load_request_history blob').requests.filter
          (fun r => local_day_key 0 r.timestamp == p.label)).map
            req_tokens).sum % 2 ^ 64) ∧
      (get_usage_stats 0 0 blob').requests_by_hour.length ≤ 24 ∧
      ((get_usage_stats 0 0 blob').requests_by_hour.map
        (fun p => p.label)).Sorted (· ≤ ·) ∧
      (get_usage_stats 0 0 blob').requests_by_hour
        <:+ bucketize (load_request_history blob').requests
            (fun r => local_hour_key 0 r.timestamp) (fun _ => 1) ∧
      (∀ p ∈ (get_usage_stats 0 0 blob').requests_by_hour,
        p.value = ((load_request_history blob').requests.filter
          (fun r => local_hour_key 0 r.timestamp == p.label)).length % 2 ^ 64) ∧
      (get_usage_stats 0 0 blob').tokens_by_hour.length ≤ 24 ∧
      ((get_usage_stats 0 0 blob').tokens_by_hour.map
        (fun p => p.label)).Sorted (· ≤ ·) ∧
      (get_usage_stats 0 0 blob').tokens_by_hour
        <:+ bucketize (load_request_history blob').requests
            (fun r => local_hour_key 0 r.timestamp) req_tokens ∧
      (∀ p ∈ (get_usage_stats 0 0 blob').tokens_by_hour,
        p.value = (((load_request_history blob').requests.filter
          (fun r => local_hour_key 0 r.timestamp == p.label)).map
            req_tokens).sum % 2 ^ 64)) ∧
    (get_usage_stats 0 0 blobTwoDays).requests_by_day.length = 2 ∧
    (get_usage_stats 0 0 blobTwoDays).tokens_by_day.length = 2 ∧
    (∀ p ∈ (get_usage_stats 0 0 blobTwoDays).requests_by_day,
      p.label ∈ ["1970-01-01", "1970-01-02"] ∧
      p.value = ((load_request_history blobTwoDays).requests.filter
        (fun r => local_day_key 0 r.timestamp == p.label)).length % 2 ^ 64) ∧
    (∀ p ∈ (get_usage_stats 0 0 blobTwoDays).tokens_by_day,
      p.label ∈ ["1970-01-01", "1970-01-02"] ∧
      p.value = (((load_request_history blobTwoDays).requests.filter
        (fun r => local_day_key 0 r.timestamp == p.label)).map
          req_tokens).sum % 2 ^ 64)) :=
  ⟨by decide,
   usage_stats_two_day_series 0 0 blobTwoDays "1970-01-01" "1970-01-02" (by decide)⟩

end RouterCli
